import Mathlib

/-
  Verification of the CRAM I/O core (io_lib/cram_io.c): ITF8/LTF8 varint
  codecs, block read/write/compress/decompress, container header codec,
  file-definition header gate, compression metrics, and the reference
  sequence cache logic.

  Machine integers are embedded as natural-number bit patterns:
  an int32_t value v is represented by its two's-complement pattern
  v mod 2^32 (a Nat below 2^32), and an int64_t by its pattern below 2^64.
  C bitwise operations on those patterns are rendered arithmetically:
  `x >> k` is `x / 2^k`, `x & (2^k - 1)` is `x % 2^k`, and `a | b` is
  `a + b` exactly at the places where the source guarantees the two
  operands have disjoint bits (each such place is noted).  Byte streams
  are lists of naturals (each byte below 256 on well-formed streams).
-/

namespace Cram


/-! ## ITF8 / LTF8 varint codecs (cram_io.c lines 55-399) -/

/-- Embedding of `itf8_put` (cram_io.c:155-182).  The input is the 32-bit
pattern of the int32_t argument; the result is the list of bytes stored,
whose length is the C function's return value.  The C guard
`!(val & ~0x7f)` on a 32-bit pattern is `n < 0x80`, and similarly for the
wider guards.  In the 2..4-byte cases the first byte is
`(val >> shift) | tag`; the shifted value is below the tag bit, so the
bitwise-or is rendered as `+`.  In the 5-byte case the first byte is
`0xf0 | ((val>>28) & 0xff)`; after the arithmetic shift and mask this is
`0xf0 + n / 2^28` with `n / 2^28 < 16`. -/
def itf8_put (n : Nat) : List Nat :=
  if n < 0x80 then
    [n]
  else if n < 0x4000 then
    [n / 2^8 + 0x80, n % 256]
  else if n < 0x200000 then
    [n / 2^16 + 0xc0, n / 2^8 % 256, n % 256]
  else if n < 0x10000000 then
    [n / 2^24 + 0xe0, n / 2^16 % 256, n / 2^8 % 256, n % 256]
  else
    [0xf0 + n / 2^28, n / 2^20 % 256, n / 2^12 % 256, n / 2^4 % 256, n % 16]

/-- Byte access used by the in-memory decoders: the C `itf8_get` reads from
a caller-supplied buffer with no bounds check (the caller guarantees at
least five readable bytes); out-of-range positions are modelled as 0. -/
def byteAt (s : List Nat) (i : Nat) : Nat := s.getD i 0

/-- Embedding of `itf8_get` (cram_io.c:128-147).  Returns the decoded
32-bit pattern and the number of bytes consumed.  Each branch or-combines
shifted bytes (disjoint, so rendered as `+`/`*256`) and applies the
trailing mask of the source as `%`. -/
def itf8_get (s : List Nat) : Nat × Nat :=
  if byteAt s 0 < 0x80 then
    (byteAt s 0, 1)
  else if byteAt s 0 < 0xc0 then
    ((byteAt s 0 * 2^8 + byteAt s 1) % 0x4000, 2)
  else if byteAt s 0 < 0xe0 then
    ((byteAt s 0 * 2^16 + byteAt s 1 * 2^8 + byteAt s 2) % 0x200000, 3)
  else if byteAt s 0 < 0xf0 then
    ((byteAt s 0 * 2^24 + byteAt s 1 * 2^16 + byteAt s 2 * 2^8 + byteAt s 3)
       % 0x10000000, 4)
  else
    ((byteAt s 0 % 16) * 2^28 + byteAt s 1 * 2^20 + byteAt s 2 * 2^12 +
       byteAt s 3 * 2^4 + byteAt s 4 % 16, 5)

/-- Embedding of `ltf8_put` (cram_io.c:186-251) on the 64-bit pattern of
the int64_t argument.  Guards `!(val & ~((1LL<<k)-1))` become `n < 2^k`.
First bytes `(val >> shift) | tag` are again disjoint-or, so `+`; in the
8-byte case `val >> 56 = 0` so the first byte is exactly 0xfe, and the
9-byte case writes a literal 0xff first. -/
def ltf8_put (n : Nat) : List Nat :=
  if n < 2^7 then
    [n]
  else if n < 2^14 then
    [n / 2^8 + 0x80, n % 256]
  else if n < 2^21 then
    [n / 2^16 + 0xc0, n / 2^8 % 256, n % 256]
  else if n < 2^28 then
    [n / 2^24 + 0xe0, n / 2^16 % 256, n / 2^8 % 256, n % 256]
  else if n < 2^35 then
    [n / 2^32 + 0xf0, n / 2^24 % 256, n / 2^16 % 256, n / 2^8 % 256, n % 256]
  else if n < 2^42 then
    [n / 2^40 + 0xf8, n / 2^32 % 256, n / 2^24 % 256, n / 2^16 % 256,
     n / 2^8 % 256, n % 256]
  else if n < 2^49 then
    [n / 2^48 + 0xfc, n / 2^40 % 256, n / 2^32 % 256, n / 2^24 % 256,
     n / 2^16 % 256, n / 2^8 % 256, n % 256]
  else if n < 2^56 then
    [n / 2^56 + 0xfe, n / 2^48 % 256, n / 2^40 % 256, n / 2^32 % 256,
     n / 2^24 % 256, n / 2^16 % 256, n / 2^8 % 256, n % 256]
  else
    [0xff, n / 2^56 % 256, n / 2^48 % 256, n / 2^40 % 256, n / 2^32 % 256,
     n / 2^24 % 256, n / 2^16 % 256, n / 2^8 % 256, n % 256]

/-- Embedding of `ltf8_get` (cram_io.c:253-318).  Returns the decoded
64-bit pattern and the byte count.  The 8-byte branch (first byte 0xfe)
and the 9-byte branch (0xff) ignore the first byte, exactly as the
source does. -/
def ltf8_get (s : List Nat) : Nat × Nat :=
  if byteAt s 0 < 0x80 then
    (byteAt s 0, 1)
  else if byteAt s 0 < 0xc0 then
    ((byteAt s 0 * 2^8 + byteAt s 1) % 2^14, 2)
  else if byteAt s 0 < 0xe0 then
    ((byteAt s 0 * 2^16 + byteAt s 1 * 2^8 + byteAt s 2) % 2^21, 3)
  else if byteAt s 0 < 0xf0 then
    ((byteAt s 0 * 2^24 + byteAt s 1 * 2^16 + byteAt s 2 * 2^8 +
        byteAt s 3) % 2^28, 4)
  else if byteAt s 0 < 0xf8 then
    ((byteAt s 0 * 2^32 + byteAt s 1 * 2^24 + byteAt s 2 * 2^16 +
        byteAt s 3 * 2^8 + byteAt s 4) % 2^35, 5)
  else if byteAt s 0 < 0xfc then
    ((byteAt s 0 * 2^40 + byteAt s 1 * 2^32 + byteAt s 2 * 2^24 +
        byteAt s 3 * 2^16 + byteAt s 4 * 2^8 + byteAt s 5) % 2^42, 6)
  else if byteAt s 0 < 0xfe then
    ((byteAt s 0 * 2^48 + byteAt s 1 * 2^40 + byteAt s 2 * 2^32 +
        byteAt s 3 * 2^24 + byteAt s 4 * 2^16 + byteAt s 5 * 2^8 +
        byteAt s 6) % 2^49, 7)
  else if byteAt s 0 < 0xff then
    ((byteAt s 1 * 2^48 + byteAt s 2 * 2^40 + byteAt s 3 * 2^32 +
        byteAt s 4 * 2^24 + byteAt s 5 * 2^16 + byteAt s 6 * 2^8 +
        byteAt s 7) % 2^56, 8)
  else
    (byteAt s 1 * 2^56 + byteAt s 2 * 2^48 + byteAt s 3 * 2^40 +
       byteAt s 4 * 2^32 + byteAt s 5 * 2^24 + byteAt s 6 * 2^16 +
       byteAt s 7 * 2^8 + byteAt s 8, 9)

/-- Payload-bit budget of a k-byte ITF8 encoding under the leading-bit
length-indicator rule: 7 bits for 1 byte, then 6+8, 5+16, 4+24 bits, and
the 5-byte case carries 4+24+4 = 32 bits. -/
def itf8_payload_bits : Nat → Nat
  | 1 => 7
  | 2 => 14
  | 3 => 21
  | 4 => 28
  | 5 => 32
  | _ => 0

/-- Payload-bit budget of a k-byte LTF8 encoding: 8-k leading-free bits in
the first byte plus 8(k-1), up to the 9-byte case with a full 64-bit
payload. -/
def ltf8_payload_bits : Nat → Nat
  | 1 => 7
  | 2 => 14
  | 3 => 21
  | 4 => 28
  | 5 => 35
  | 6 => 42
  | 7 => 49
  | 8 => 56
  | 9 => 64
  | _ => 0

/-- Byte produced by `(unsigned char)getc(fd->fp)` at stream position i:
the byte itself while the stream lasts, and 0xff past the end, because
getc returns the int -1 at end-of-stream and the cast to unsigned char
turns it into 0xff. -/
def eofByte (s : List Nat) (i : Nat) : Nat := s.getD i 0xff

/-- Embedding of the stream decoder `itf8_decode` (cram_io.c:55-111).
The stream is the list of bytes still unread.  Only the first `getc` is
checked against -1 (`if (val == -1) return -1`), so the decoder fails
exactly on the empty stream; the remaining reads go through `eofByte`.
The `nbytes`/`nbits` tables indexed by the top nibble are rendered as the
equivalent range tests, with each `val &= nbits[...]` mask as `%`. -/
def itf8_decode (s : List Nat) : Option (Nat × Nat) :=
  match s with
  | [] => none
  | b0 :: rest =>
    if b0 < 0x80 then
      some (b0 % 0x80, 1)
    else if b0 < 0xc0 then
      some ((b0 % 0x40) * 2^8 + eofByte rest 0, 2)
    else if b0 < 0xe0 then
      some (((b0 % 0x20) * 2^8 + eofByte rest 0) * 2^8 + eofByte rest 1, 3)
    else if b0 < 0xf0 then
      some ((((b0 % 0x10) * 2^8 + eofByte rest 0) * 2^8 + eofByte rest 1)
              * 2^8 + eofByte rest 2, 4)
    else
      some (((((b0 % 0x10) * 2^8 + eofByte rest 0) * 2^8 + eofByte rest 1)
              * 2^8 + eofByte rest 2) * 2^4 + eofByte rest 3 % 16, 5)

/-- Embedding of the stream decoder `ltf8_decode` (cram_io.c:320-399).
As with `itf8_decode`, end-of-stream is only detected at the first byte;
the final branch's int64 accumulation shifts the first byte out of the
top, rendered by the explicit `% 2^64`. -/
def ltf8_decode (s : List Nat) : Option (Nat × Nat) :=
  match s with
  | [] => none
  | b0 :: rest =>
    if b0 < 0x80 then
      some (b0, 1)
    else if b0 < 0xc0 then
      some ((b0 * 2^8 + eofByte rest 0) % 2^14, 2)
    else if b0 < 0xe0 then
      some ((b0 * 2^16 + eofByte rest 0 * 2^8 + eofByte rest 1) % 2^21, 3)
    else if b0 < 0xf0 then
      some ((b0 * 2^24 + eofByte rest 0 * 2^16 + eofByte rest 1 * 2^8 +
               eofByte rest 2) % 2^28, 4)
    else if b0 < 0xf8 then
      some ((b0 * 2^32 + eofByte rest 0 * 2^24 + eofByte rest 1 * 2^16 +
               eofByte rest 2 * 2^8 + eofByte rest 3) % 2^35, 5)
    else if b0 < 0xfc then
      some ((b0 * 2^40 + eofByte rest 0 * 2^32 + eofByte rest 1 * 2^24 +
               eofByte rest 2 * 2^16 + eofByte rest 3 * 2^8 +
               eofByte rest 4) % 2^42, 6)
    else if b0 < 0xfe then
      some ((b0 * 2^48 + eofByte rest 0 * 2^40 + eofByte rest 1 * 2^32 +
               eofByte rest 2 * 2^24 + eofByte rest 3 * 2^16 +
               eofByte rest 4 * 2^8 + eofByte rest 5) % 2^49, 7)
    else if b0 < 0xff then
      some ((b0 * 2^56 + eofByte rest 0 * 2^48 + eofByte rest 1 * 2^40 +
               eofByte rest 2 * 2^32 + eofByte rest 3 * 2^24 +
               eofByte rest 4 * 2^16 + eofByte rest 5 * 2^8 +
               eofByte rest 6) % 2^56, 8)
    else
      some ((b0 * 2^64 + eofByte rest 0 * 2^56 + eofByte rest 1 * 2^48 +
               eofByte rest 2 * 2^40 + eofByte rest 3 * 2^32 +
               eofByte rest 4 * 2^24 + eofByte rest 5 * 2^16 +
               eofByte rest 6 * 2^8 + eofByte rest 7) % 2^64, 9)

/-- Stream form of `itf8_decode`: the decoded value together with the
rest of the stream after the consumed bytes. -/
def itf8_decodeS (s : List Nat) : Option (Nat × List Nat) :=
  match itf8_decode s with
  | none => none
  | some (v, k) => some (v, s.drop k)

/-- Stream form of `ltf8_decode`. -/
def ltf8_decodeS (s : List Nat) : Option (Nat × List Nat) :=
  match ltf8_decode s with
  | none => none
  | some (v, k) => some (v, s.drop k)

/-- Embedding of `int32_decode` (cram_io.c:423-430): reads a 32-bit
little-endian value (4 bytes via `fread`, failing on a short read),
returning the value's pattern and the rest of the stream. -/
def int32_decode (s : List Nat) : Option (Nat × List Nat) :=
  match s with
  | b0 :: b1 :: b2 :: b3 :: rest =>
      some (b0 + b1 * 2^8 + b2 * 2^16 + b3 * 2^24, rest)
  | _ => none

/-- Little-endian 4-byte layout of an int32 pattern, as stored by
`*(int32_t *)cp = le_int4(v)` in `cram_write_container`. -/
def le4_bytes (n : Nat) : List Nat :=
  [n % 256, n / 2^8 % 256, n / 2^16 % 256, n / 2^24 % 256]

/-! ## CRAM blocks (cram_io.c lines 588-916) -/

/-- Numeric code of the Raw method of `enum cram_block_method`.
Modelled from the spec: the enum itself is declared in io_lib/cram.h,
which is not under src/; spec section 6 fixes the wire codes
0=Raw, 1=Gzip-like, 2=Bzip2-like. -/
def RAW : Nat := 0

/-- Numeric code of the Gzip method (modelled from the spec, as for
`RAW`). -/
def GZIP : Nat := 1

/-- Numeric code of the Bzip2 method (modelled from the spec, as for
`RAW`). -/
def BZIP2 : Nat := 2

/-- Embedding of `cram_block` (the fields the I/O functions read and
write): `method` and `content_type` are the C ints holding the enum
tags, `content_id`, `comp_size` and `uncomp_size` are int32 patterns,
and `data` is the owned byte buffer.  The cursor bookkeeping fields
(`alloc`, `byte`, `bit`, `idx`, `orig_method`) play no part in the
claims and are omitted. -/
structure cram_block where
  method : Nat
  content_type : Nat
  content_id : Nat
  comp_size : Nat
  uncomp_size : Nat
  data : List Nat
deriving Repr, DecidableEq

/-- Embedding of `cram_write_block` (cram_io.c:673-691): one byte each
for method and content_type (`putc` stores the value modulo 256), the
three ITF8 header fields, then the payload — `uncomp_size` bytes of the
buffer when the method is Raw, else `comp_size` bytes (`fwrite` reads
exactly that many bytes from `b->data`). -/
def cram_write_block (b : cram_block) : List Nat :=
  [b.method % 256, b.content_type % 256] ++ itf8_put b.content_id ++
    itf8_put b.comp_size ++ itf8_put b.uncomp_size ++
    b.data.take (if b.method = RAW then b.uncomp_size else b.comp_size)

/-- Embedding of `cram_read_block` (cram_io.c:626-666): method and
content_type bytes (failing at end-of-stream), the three ITF8 header
fields via the stream decoder, then exactly `uncomp_size` payload bytes
when the method is Raw, else `comp_size` bytes, failing on a short
read. -/
def cram_read_block (s : List Nat) : Option (cram_block × List Nat) :=
  match s with
  | m :: ct :: s1 =>
    match itf8_decodeS s1 with
    | none => none
    | some (cid, s2) =>
      match itf8_decodeS s2 with
      | none => none
      | some (csz, s3) =>
        match itf8_decodeS s3 with
        | none => none
        | some (usz, s4) =>
          let len := if m = RAW then usz else csz
          if len ≤ s4.length then
            some ({ method := m, content_type := ct, content_id := cid,
                    comp_size := csz, uncomp_size := usz,
                    data := s4.take len }, s4.drop len)
          else
            none
  | _ => none

/-- Embedding of `cram_metrics` (per-stream-class trial bookkeeping) and
`cram_new_metrics` (cram_io.c:887-895), with the C int fields as
integers. -/
structure cram_metrics where
  m1 : Int
  m2 : Int
  trial : Int
  next_trial : Int
deriving Repr, DecidableEq

/-- Embedding of `cram_new_metrics` (cram_io.c:887-895). -/
def cram_new_metrics : cram_metrics :=
  { m1 := 0, m2 := 0, trial := 2, next_trial := 100 }

/-- The trial bookkeeping at the head of the both-candidates path of
`cram_compress_block` (cram_io.c:833-839): when `next_trial` is 0 the
state resets (`next_trial=100`, `trial=2`, and the win counts are
cleared with `m1 = m2 = 0`); otherwise `trial` is decremented. -/
def metrics_step (m : cram_metrics) : cram_metrics :=
  if m.next_trial = 0 then
    { m with next_trial := 100, trial := 2, m1 := 0, m2 := 0 }
  else
    { m with trial := m.trial - 1 }

/-- The both-candidates body of `cram_compress_block`
(cram_io.c:829-862), entered when `strat2 >= 0 && (metrics->trial ||
--metrics->next_trial == 0)` holds; `m` is the metrics value after any
short-circuit decrement of `next_trial`.  Both candidates are deflated
and the first wins exactly when `s1 < 0.98 * s2`; the double constant
0.98 is modelled as the exact rational 49/50, i.e. `50*s1 < 49*s2`.
The deflate backend is an oracle mapping (data, level, strategy) to the
compressed bytes. -/
def cram_compress_both (deflate : List Nat → Int → Int → List Nat)
    (b : cram_block) (m : cram_metrics)
    (level strat level2 strat2 : Int) : cram_block × cram_metrics :=
  if 50 * (deflate b.data level strat).length <
      49 * (deflate b.data level2 strat2).length then
    ({ b with data := deflate b.data level strat,
              method := GZIP,
              comp_size := (deflate b.data level strat).length },
     { metrics_step m with m1 := (metrics_step m).m1 + 1 })
  else
    ({ b with data := deflate b.data level2 strat2,
              method := GZIP,
              comp_size := (deflate b.data level2 strat2).length },
     { metrics_step m with m2 := (metrics_step m).m2 + 1 })

/-- Embedding of `cram_compress_block` (cram_io.c:801-885) with the zlib
deflate backend as an oracle (in this build HAVE_LIBBZ2 is not defined,
so the bzip2 dispatch is absent).  Level 0 forces Raw with equal sizes;
an already-compressed block is returned unchanged with success; with a
second candidate (`strat2 >= 0`) the metrics state machine runs as in
the source, including the short-circuit `--metrics->next_trial` that
happens only when `metrics->trial` is 0 (and whose decremented value the
between-trials branch keeps); between trials the candidate with the
larger win count is used (`m1 > m2` picks the first).  An allocation
failure is the only failure path in the source and is unrepresentable
here, so every path returns `some`. -/
def cram_compress_block (deflate : List Nat → Int → Int → List Nat)
    (b : cram_block) (m : cram_metrics)
    (level strat level2 strat2 : Int) : Option (cram_block × cram_metrics) :=
  if level = 0 then
    some ({ b with method := RAW, comp_size := b.uncomp_size }, m)
  else if b.method ≠ RAW then
    some (b, m)
  else if 0 ≤ strat2 then
    if m.trial ≠ 0 then
      some (cram_compress_both deflate b m level strat level2 strat2)
    else if m.next_trial - 1 = 0 then
      some (cram_compress_both deflate b
        { m with next_trial := m.next_trial - 1 } level strat level2 strat2)
    else
      some ({ b with
              data := deflate b.data (if m.m1 > m.m2 then level else level2)
                        (if m.m1 > m.m2 then strat else strat2),
              method := GZIP,
              comp_size := (deflate b.data
                        (if m.m1 > m.m2 then level else level2)
                        (if m.m1 > m.m2 then strat else strat2)).length },
            { m with next_trial := m.next_trial - 1 })
  else
    some ({ b with data := deflate b.data level strat,
                   method := GZIP,
                   comp_size := (deflate b.data level strat).length }, m)

/-! ## Containers (cram_io.c lines 1668-1932) -/

/-- Version selector for the legacy wire format.  Modelled from the
spec: `CRAM_1_VERS` is declared in io_lib/cram.h, which is not under
src/; `fd->version` is `major*100 + minor` and the legacy 1.x layout is
selected by equality with this constant, so only equality with it
matters and the concrete value is taken as 100 (version 1.0). -/
def CRAM_1_VERS : Nat := 100

/-- Embedding of the header fields of `cram_container` that
`cram_read_container`/`cram_write_container` exchange: int32 patterns,
the int64 `num_bases`, the landmark offsets, and the multi-sequence
flag.  The in-memory bookkeeping (slices, statistics, offsets) plays no
part in the codec and is omitted. -/
structure cram_container where
  length : Nat
  ref_seq_id : Nat
  ref_seq_start : Nat
  ref_seq_span : Nat
  num_records : Nat
  record_counter : Nat
  num_bases : Nat
  num_blocks : Nat
  num_landmarks : Nat
  landmark : List Nat
  multi_seq : Bool
deriving Repr, DecidableEq

/-- The landmark loop of `cram_write_container` (cram_io.c:1920-1921):
each landmark offset in ITF8, in order. -/
def put_landmarks : List Nat → List Nat
  | [] => []
  | x :: xs => itf8_put x ++ put_landmarks xs

/-- Embedding of `cram_write_container` (cram_io.c:1890-1932): `length`
as ITF8 in the legacy version and as 4-byte little-endian otherwise;
then the reference triple — forced to the wire sentinel (-2, 0, 0) when
the multi-sequence flag is set, regardless of the stored fields —
`num_records`, the non-legacy `record_counter` (ITF8) and `num_bases`
(LTF8), `num_blocks`, `num_landmarks`, and the landmarks. -/
def cram_write_container (version : Nat) (c : cram_container) : List Nat :=
  (if version = CRAM_1_VERS then itf8_put c.length else le4_bytes c.length) ++
  (if c.multi_seq then
     itf8_put (2^32 - 2) ++ itf8_put 0 ++ itf8_put 0
   else
     itf8_put c.ref_seq_id ++ itf8_put c.ref_seq_start ++
       itf8_put c.ref_seq_span) ++
  itf8_put c.num_records ++
  (if version ≠ CRAM_1_VERS then
     itf8_put c.record_counter ++ ltf8_put c.num_bases
   else []) ++
  itf8_put c.num_blocks ++
  itf8_put c.num_landmarks ++
  put_landmarks c.landmark

/-- The version-dependent middle of the container header
(cram_io.c:1832-1845): the legacy version carries no `record_counter`
or `num_bases` and zeroes them; later versions read them as ITF8 and
LTF8. -/
def read_counters (version : Nat) (s : List Nat) :
    Option (Nat × Nat × List Nat) :=
  if version = CRAM_1_VERS then some (0, 0, s)
  else
    match itf8_decodeS s with
    | none => none
    | some (rc, s6) =>
      match ltf8_decodeS s6 with
      | none => none
      | some (nb, s7) => some (rc, nb, s7)

/-- The landmark loop of `cram_read_container` (cram_io.c:1859-1866):
read the given number of ITF8 offsets, failing when a decode fails. -/
def read_landmarks : Nat → List Nat → Option (List Nat × List Nat)
  | 0, s => some ([], s)
  | k + 1, s =>
    match itf8_decodeS s with
    | none => none
    | some (v, s1) =>
      match read_landmarks k s1 with
      | none => none
      | some (vs, s2) => some (v :: vs, s2)

/-- Embedding of `cram_read_container` (cram_io.c:1804-1882).  Takes the
session's multi-sequence flag `fd_multi` and returns the decoded
container, the session flag after the call (set when the wire
`ref_seq_id` is the sentinel -2, i.e. pattern 2^32-2, untouched
otherwise), and the remaining stream.  In the legacy version
`record_counter` and `num_bases` are not on the wire and are set to 0.
A `num_landmarks` pattern of 2^31 or more is a negative int whose
`malloc(num_landmarks * sizeof(int32_t))` request overflows and fails,
so the read fails. -/
def cram_read_container (version : Nat) (fd_multi : Bool) (s : List Nat) :
    Option (cram_container × Bool × List Nat) :=
  (if version = CRAM_1_VERS then itf8_decodeS s else int32_decode s).bind
    fun lenS =>
  (itf8_decodeS lenS.2).bind fun ridS =>
  (itf8_decodeS ridS.2).bind fun rstartS =>
  (itf8_decodeS rstartS.2).bind fun rspanS =>
  (itf8_decodeS rspanS.2).bind fun nrecS =>
  (read_counters version nrecS.2).bind fun rcS =>
  (itf8_decodeS rcS.2.2).bind fun nblkS =>
  (itf8_decodeS nblkS.2).bind fun nlS =>
  if nlS.1 < 2^31 then
    (read_landmarks nlS.1 nlS.2).bind fun lmS =>
    some ({ length := lenS.1, ref_seq_id := ridS.1,
            ref_seq_start := rstartS.1, ref_seq_span := rspanS.1,
            num_records := nrecS.1, record_counter := rcS.1,
            num_bases := rcS.2.1, num_blocks := nblkS.1,
            num_landmarks := nlS.1, landmark := lmS.1,
            multi_seq := decide (ridS.1 = 2^32 - 2) },
          (if ridS.1 = 2^32 - 2 then true else fd_multi), lmS.2)
  else
    none

/-! ## CRAM file definition (cram_io.c lines 2295-2347) -/

/-- Embedding of `cram_file_def`: the 26-byte header split into its
4-byte magic, the version pair, and the 20-byte file id. -/
structure cram_file_def where
  magic : List Nat
  major_version : Nat
  minor_version : Nat
  file_id : List Nat
deriving Repr, DecidableEq

/-- Embedding of `cram_read_file_def` (cram_io.c:2304-2334): a short
read of the 26-byte header fails; the magic must be the bytes "CRAM"
(0x43 0x52 0x41 0x4d); the version pair must be (1,0), (1,1) or (2,0);
anything else returns NULL. -/
def cram_read_file_def (s : List Nat) : Option cram_file_def :=
  if 26 ≤ s.length then
    if s.take 4 = [0x43, 0x52, 0x41, 0x4d] then
      if (s.getD 4 0 = 1 ∧ s.getD 5 0 = 0) ∨
         (s.getD 4 0 = 1 ∧ s.getD 5 0 = 1) ∨
         (s.getD 4 0 = 2 ∧ s.getD 5 0 = 0) then
        some { magic := s.take 4, major_version := s.getD 4 0,
               minor_version := s.getD 5 0, file_id := (s.take 26).drop 6 }
      else
        none
    else
      none
  else
    none

/-- Embedding of `cram_uncompress_block` (cram_io.c:707-758) with the
zlib inflate backend as an oracle.  An empty (`uncomp_size == 0`) block
is reset to Raw untouched; a Raw block gets `uncomp_size := comp_size`;
a Gzip block inflates, and the source asserts the inflated size equals
the recorded `uncomp_size` (an assert, i.e. abort on mismatch, modelled
as failure); the Bzip2 case aborts because HAVE_LIBBZ2 is not defined in
this build; any other method value matches no case of the switch and
falls through to `return 0`. -/
def cram_uncompress_block (inflate : List Nat → Option (List Nat))
    (b : cram_block) : Option cram_block :=
  if b.uncomp_size = 0 then
    some { b with method := RAW }
  else if b.method = RAW then
    some { b with uncomp_size := b.comp_size }
  else if b.method = GZIP then
    match inflate b.data with
    | none => none
    | some u =>
      if u.length = b.uncomp_size then
        some { b with data := u, method := RAW }
      else
        none
  else if b.method = BZIP2 then
    none
  else
    some b

/-! ### Reference sequence cache: `cram_get_ref` (cram_io.c:1434-1640)

The model keeps the fields of `cram_fd` and of `ref_entry` that
`cram_get_ref` reads or writes (their struct definitions live in a
header outside this tree; every field below is taken from its use in
cram_io.c).  The `refs->ref_id` pointer array is inlined as the list
`refs` (`refs->nref` is its length; a `none` element is a NULL entry
pointer).  The on-disk reference file of an entry is carried as
`fileData`, fixing the flat MD5-cache layout (`r->line_length == 0`,
cram_io.c:1555-1563, so the file offset of base `start` is `start-1`
and `len == end-start+1`, hence the whitespace-stripping pass at
cram_io.c:1606-1621 is a no-op); `seq = some s` models a non-NULL
`r->seq` in-memory cache.  Buffers are values, so pointer identity of
`fd->ref` is not tracked; `fd->ref_free = some d` means the session
owns a private buffer. -/

structure ref_entry where
  length : Int
  seq : Option (List Nat)
  count : Int
  fileData : List Nat
deriving Repr, DecidableEq

structure cram_fd where
  ref_id : Int
  ref : Option (List Nat)
  ref_start : Int
  ref_end : Int
  ref_free : Option (List Nat)
  unsorted : Bool
  shared_ref : Bool
  refs : List (Option ref_entry)
deriving Repr, DecidableEq

/-- C array read `refs->ref_id[i]`: defined only for `0 ≤ i < nref`;
`none` marks an out-of-bounds access (undefined behaviour in C). -/
def refsGet (refs : List (Option ref_entry)) (i : Int) :
    Option (Option ref_entry) :=
  if 0 ≤ i then refs[i.toNat]? else none

/-- C array write `refs->ref_id[i] = e` (in-bounds only). -/
def refsSet (refs : List (Option ref_entry)) (i : Int)
    (e : Option ref_entry) : List (Option ref_entry) :=
  if 0 ≤ i then refs.set i.toNat e else refs

/-- Outcome of `cram_get_ref`.  `ok fd res fileRead` is a normal return
of `res` (`none` is the NULL no-reference result of the unmapped path,
cram_io.c:1480-1488) with the updated session state and whether the
reference file was read; `err` is a NULL error return (diagnostic
printed; the model does not track session fields on error paths);
`oob` is an out-of-bounds read of `refs->ref_id` or a dereference of a
NULL entry (undefined behaviour); `assertViolation` is the failure of
`assert(start >= 1)` (cram_io.c:1530); `populate` enters
`cram_populate_ref` (filesystem and SAM-header work outside this
model, cram_io.c:1513-1519). -/
inductive GetRefOutcome where
  | ok (fd : cram_fd) (res : Option (List Nat)) (fileRead : Bool)
  | err
  | oob
  | assertViolation
  | populate
deriving Repr, DecidableEq

/-- The shared-reference counter maintenance of cram_io.c:1453-1474.
When switching reference in shared mode (`fd->ref_id != id &&
!fd->unsorted && fd->shared_ref`): the old entry's counter is
decremented and its sequence dropped when the counter reaches 0,
guarded by `fd->ref_id >= 0` (cram_io.c:1463-1469); then the NEW
entry's counter is incremented through the unguarded read
`fd->refs->ref_id[id]->seq` (cram_io.c:1472) — for `id < 0` that read
is out of bounds, which this function reports as `none`. -/
def sharedStep (fd : cram_fd) (id : Int) : Option cram_fd :=
  if fd.ref_id ≠ id ∧ fd.unsorted = false ∧ fd.shared_ref = true then
    (if 0 ≤ fd.ref_id then
       match refsGet fd.refs fd.ref_id with
       | none => none
       | some none => none
       | some (some old) =>
         match old.seq with
         | none => some fd.refs
         | some _ =>
           if old.count - 1 ≤ 0 then
             some (refsSet fd.refs fd.ref_id
               (some { old with count := old.count - 1, seq := none }))
           else
             some (refsSet fd.refs fd.ref_id
               (some { old with count := old.count - 1 }))
     else some fd.refs).bind fun refs1 =>
      match refsGet refs1 id with
      | none => none
      | some none => none
      | some (some r) =>
        match r.seq with
        | none => some { fd with refs := refs1 }
        | some _ =>
          some { fd with
                 refs := refsSet refs1 id
                   (some { r with count := r.count + 1 }) }
  else some fd

/-- The end clamping of cram_io.c:1526-1529: `end < 1` requests the
whole sequence, and `end` never exceeds the entry length. -/
def clampEnd (L end0 : Int) : Int :=
  if end0 < 1 then L else if L ≤ end0 then L else end0

/-- The whole-load promotion test of cram_io.c:1532: `end - start >=
0.5*r->length || fd->shared_ref` (the floating comparison is exact at
these magnitudes, rendered as `L ≤ 2*(end-start)`). -/
def promotes (L start end2 : Int) (shared : Bool) : Bool :=
  decide (L ≤ 2 * (end2 - start)) || shared

/-- cram_io.c:1542-1637: serve from the entry's in-memory cache if
populated (cram_io.c:1542-1548), else read `[start,end2]` from the
reference file (offset `start-1`, length `end2-start+1` in the flat
layout; a read past end of file is the short-`fread` error of
cram_io.c:1596-1599); a whole-sequence load in unsorted mode, or any
load in shared mode, is stashed in the entry with `count = 1`
(cram_io.c:1631-1637), otherwise the session owns the buffer via
`ref_free`. -/
def loadOrServe (fd : cram_fd) (id : Int) (r : ref_entry)
    (start end2 : Int) : GetRefOutcome :=
  match r.seq with
  | some s =>
    .ok { fd with
          ref_id := id, ref := some s,
          ref_start := 1, ref_end := r.length } (some s) false
  | none =>
    let offset := start - 1
    let len := end2 - start + 1
    if len < 0 ∨ (r.fileData.length : Int) < offset + len then .err
    else
      let data := (r.fileData.drop offset.toNat).take len.toNat
      if (fd.unsorted = true ∧ start = 1 ∧ end2 = r.length) ∨
          fd.shared_ref = true then
        .ok { fd with
              ref_id := id, ref := some data,
              ref_start := start, ref_end := end2, ref_free := none,
              refs := refsSet fd.refs id
                (some { r with seq := some data, count := 1 }) }
          (some data) true
      else
        .ok { fd with
              ref_id := id, ref := some data,
              ref_start := start, ref_end := end2,
              ref_free := some data }
          (some data) true

/-- cram_io.c:1434-1640 (`end` is `end0`; verbose logging dropped).
Order of business: the same-window fast path (1447-1451); the
shared-mode counter step (1453-1474); the unmapped sentinel
(1480-1488); the id bounds and NULL-entry checks (1491-1504); the
unpopulated-entry path (1513-1519); end clamping, the start assert and
whole-load promotion (1526-1535); then cache/file service. -/
def cram_get_ref (fd : cram_fd) (id start end0 : Int) : GetRefOutcome :=
  if id = fd.ref_id ∧ fd.ref_start ≤ start ∧ end0 ≤ fd.ref_end then
    .ok fd fd.ref false
  else
    match sharedStep fd id with
    | none => .oob
    | some fd1 =>
      if id < 0 then
        .ok { fd1 with ref := none, ref_id := id, ref_free := none }
          none false
      else if (fd1.refs.length : Int) ≤ id then
        .err
      else
        match refsGet fd1.refs id with
        | none => .err
        | some none => .err
        | some (some r) =>
          if r.length = 0 then .populate
          else
            if start < 1 then .assertViolation
            else if promotes r.length start (clampEnd r.length end0)
                fd1.shared_ref then
              loadOrServe fd1 id r 1 r.length
            else
              loadOrServe fd1 id r start (clampEnd r.length end0)

/-- Projection: the updated session state of a normal return. -/
def outFd : GetRefOutcome → Option cram_fd
  | .ok fd _ _ => some fd
  | _ => none

/-- Projection: whether a normal return read the reference file. -/
def outFileRead : GetRefOutcome → Option Bool
  | .ok _ _ fileRead => some fileRead
  | _ => none

/-- A resolved 1000-base entry backed by a flat reference file, with no
in-memory copy yet. -/
def refEntry1000 : ref_entry :=
  { length := 1000, seq := none, count := 1,
    fileData := List.replicate 1000 65 }

/-- A fresh session holding `refEntry1000` as reference 0, with no
cached window (`ref_id = -1`). -/
def refFD0 : cram_fd :=
  { ref_id := -1, ref := none, ref_start := 0, ref_end := -1,
    ref_free := none, unsorted := false, shared_ref := false,
    refs := [some refEntry1000] }

/-- A shared-reference session whose current reference is 0 (whose
entry has no in-memory sequence, so the old-entry decrement of
cram_io.c:1463 is skipped). -/
def sharedFD : cram_fd :=
  { ref_id := 0, ref := none, ref_start := 1, ref_end := 0,
    ref_free := none, unsorted := false, shared_ref := true,
    refs := [some refEntry1000] }

end Cram

namespace Cram

theorem byteAt_cons_zero (a : Nat) (s : List Nat) : byteAt (a :: s) 0 = a := rfl

theorem byteAt_cons_succ (a : Nat) (s : List Nat) (i : Nat) :
    byteAt (a :: s) (i + 1) = byteAt s i := rfl

/-- Decoding an ITF8 encoding recovers the encoded 32-bit pattern and
consumes exactly the encoded byte count, even with trailing bytes
appended. -/
theorem itf8_get_put (n : Nat) (hn : n < 2^32) (rest : List Nat) :
    itf8_get (itf8_put n ++ rest) = (n, (itf8_put n).length) := by
  unfold itf8_put
  split_ifs with h1 h2 h3 h4 <;>
    simp only [List.cons_append, List.nil_append, itf8_get, byteAt_cons_zero,
      byteAt_cons_succ, List.length_cons, List.length_nil] <;>
    split_ifs <;> simp only [Prod.mk.injEq, and_true, and_false] <;> omega

set_option maxHeartbeats 3200000 in
/-- Decoding an LTF8 encoding recovers the encoded 64-bit pattern and
consumes exactly the encoded byte count. -/
theorem ltf8_get_put (n : Nat) (hn : n < 2^64) (rest : List Nat) :
    ltf8_get (ltf8_put n ++ rest) = (n, (ltf8_put n).length) := by
  unfold ltf8_put
  split_ifs with h1 h2 h3 h4 h5 h6 h7 h8 <;>
    simp only [List.cons_append, List.nil_append, ltf8_get, byteAt_cons_zero,
      byteAt_cons_succ, List.length_cons, List.length_nil] <;>
    split_ifs <;> simp only [Prod.mk.injEq, and_true, and_false] <;> omega

/-- Byte count chosen by `itf8_put`, branch by branch. -/
theorem itf8_put_length (n : Nat) :
    (itf8_put n).length =
      if n < 0x80 then 1 else if n < 0x4000 then 2 else if n < 0x200000 then 3
      else if n < 0x10000000 then 4 else 5 := by
  unfold itf8_put
  split_ifs <;> rfl

/-- Byte count chosen by `ltf8_put`, branch by branch. -/
theorem ltf8_put_length (n : Nat) :
    (ltf8_put n).length =
      if n < 2^7 then 1 else if n < 2^14 then 2 else if n < 2^21 then 3
      else if n < 2^28 then 4 else if n < 2^35 then 5 else if n < 2^42 then 6
      else if n < 2^49 then 7 else if n < 2^56 then 8 else 9 := by
  unfold ltf8_put
  split_ifs <;> rfl

/-- The ITF8 encoder is canonical: its output length is a byte count whose
payload bits can hold the value, and no shorter count can. -/
theorem itf8_put_minimal (n : Nat) (hn : n < 2^32) :
    n < 2^(itf8_payload_bits (itf8_put n).length) ∧
    ∀ k, 0 < k → k < (itf8_put n).length → 2^(itf8_payload_bits k) ≤ n := by
  rw [itf8_put_length]
  split_ifs with h1 h2 h3 h4 <;>
    refine ⟨by simp only [itf8_payload_bits]; omega, fun k hk0 hk ↦ ?_⟩ <;>
    interval_cases k <;> simp only [itf8_payload_bits] <;> omega

/-- The LTF8 encoder is canonical in the same sense. -/
theorem ltf8_put_minimal (n : Nat) (hn : n < 2^64) :
    n < 2^(ltf8_payload_bits (ltf8_put n).length) ∧
    ∀ k, 0 < k → k < (ltf8_put n).length → 2^(ltf8_payload_bits k) ≤ n := by
  rw [ltf8_put_length]
  split_ifs with h1 h2 h3 h4 h5 h6 h7 h8 <;>
    refine ⟨by simp only [ltf8_payload_bits]; omega, fun k hk0 hk ↦ ?_⟩ <;>
    interval_cases k <;> simp only [ltf8_payload_bits] <;> omega

theorem eofByte_cons_zero (a : Nat) (s : List Nat) : eofByte (a :: s) 0 = a := rfl

theorem eofByte_cons_succ (a : Nat) (s : List Nat) (i : Nat) :
    eofByte (a :: s) (i + 1) = eofByte s i := rfl

theorem eofByte_nil (i : Nat) : eofByte [] i = 0xff := by
  simp [eofByte]

/-- Stream-decoding an ITF8 encoding consumes it exactly and yields the
encoded pattern. -/
theorem itf8_decode_put (n : Nat) (hn : n < 2^32) (rest : List Nat) :
    itf8_decode (itf8_put n ++ rest) = some (n, (itf8_put n).length) := by
  unfold itf8_put
  split_ifs with h1 h2 h3 h4 <;>
    simp only [List.cons_append, List.nil_append, itf8_decode,
      eofByte_cons_zero, eofByte_cons_succ, List.length_cons,
      List.length_nil] <;>
    split_ifs <;>
    simp only [Option.some.injEq, Prod.mk.injEq, and_true, and_false] <;>
    omega

set_option maxHeartbeats 3200000 in
/-- Stream-decoding an LTF8 encoding consumes it exactly and yields the
encoded pattern. -/
theorem ltf8_decode_put (n : Nat) (hn : n < 2^64) (rest : List Nat) :
    ltf8_decode (ltf8_put n ++ rest) = some (n, (ltf8_put n).length) := by
  unfold ltf8_put
  split_ifs with h1 h2 h3 h4 h5 h6 h7 h8 <;>
    simp only [List.cons_append, List.nil_append, ltf8_decode,
      eofByte_cons_zero, eofByte_cons_succ, List.length_cons,
      List.length_nil] <;>
    split_ifs <;>
    simp only [Option.some.injEq, Prod.mk.injEq, and_true, and_false] <;>
    omega

theorem itf8_decodeS_put (n : Nat) (hn : n < 2^32) (rest : List Nat) :
    itf8_decodeS (itf8_put n ++ rest) = some (n, rest) := by
  unfold itf8_decodeS
  rw [itf8_decode_put n hn rest]
  show some (n, List.drop (itf8_put n).length (itf8_put n ++ rest)) =
    some (n, rest)
  rw [List.drop_left]

theorem ltf8_decodeS_put (n : Nat) (hn : n < 2^64) (rest : List Nat) :
    ltf8_decodeS (ltf8_put n ++ rest) = some (n, rest) := by
  unfold ltf8_decodeS
  rw [ltf8_decode_put n hn rest]
  show some (n, List.drop (ltf8_put n).length (ltf8_put n ++ rest)) =
    some (n, rest)
  rw [List.drop_left]

theorem int32_decode_le4 (n : Nat) (hn : n < 2^32) (rest : List Nat) :
    int32_decode (le4_bytes n ++ rest) = some (n, rest) := by
  simp only [le4_bytes, List.cons_append, List.nil_append, int32_decode,
    Option.some.injEq, Prod.mk.injEq, and_true]
  omega

/-- Every result block of the both-candidates path carries the Gzip
method tag. -/
theorem cram_compress_both_method (deflate : List Nat → Int → Int → List Nat)
    (b : cram_block) (m : cram_metrics) (level strat level2 strat2 : Int) :
    (cram_compress_both deflate b m level strat level2 strat2).1.method =
      GZIP := by
  unfold cram_compress_both
  split_ifs <;> rfl

end Cram


/-- C1: ITF8 and LTF8 round-trip with canonical length: for every 32-bit
pattern v, `itf8_get` on the bytes of `itf8_put v` yields v and consumes
exactly the byte count `itf8_put` returned, and that count is minimal for
the leading-bit length-indicator rule; likewise for every 64-bit pattern
under `ltf8_put`/`ltf8_get`. -/
theorem claim_C1_varint_roundtrip_canonical (v w : Nat)
    (hv : v < 2^32) (hw : w < 2^64) :
    (Cram.itf8_get (Cram.itf8_put v) = (v, (Cram.itf8_put v).length) ∧
     v < 2^(Cram.itf8_payload_bits (Cram.itf8_put v).length) ∧
     (∀ k, 0 < k → k < (Cram.itf8_put v).length →
        2^(Cram.itf8_payload_bits k) ≤ v)) ∧
    (Cram.ltf8_get (Cram.ltf8_put w) = (w, (Cram.ltf8_put w).length) ∧
     w < 2^(Cram.ltf8_payload_bits (Cram.ltf8_put w).length) ∧
     (∀ k, 0 < k → k < (Cram.ltf8_put w).length →
        2^(Cram.ltf8_payload_bits k) ≤ w)) := by
  have h1 := Cram.itf8_get_put v hv []
  have h2 := Cram.ltf8_get_put w hw []
  simp only [List.append_nil] at h1 h2
  exact ⟨⟨h1, Cram.itf8_put_minimal v hv⟩, ⟨h2, Cram.ltf8_put_minimal w hw⟩⟩

/-- Witness for C1 at v = 300 (a 2-byte ITF8 value) and w = 2^40 + 5
(a 6-byte LTF8 value). -/
theorem claim_C1_witness :
    Cram.itf8_get (Cram.itf8_put 300) = (300, (Cram.itf8_put 300).length) ∧
    Cram.ltf8_get (Cram.ltf8_put (2^40 + 5)) =
      (2^40 + 5, (Cram.ltf8_put (2^40 + 5)).length) :=
  ⟨(claim_C1_varint_roundtrip_canonical 300 (2^40 + 5) (by norm_num)
      (by norm_num)).1.1,
   (claim_C1_varint_roundtrip_canonical 300 (2^40 + 5) (by norm_num)
      (by norm_num)).2.1⟩

/-- C4 counterexample: the one-byte stream 0x81 promises a two-byte ITF8
(and LTF8) value, so it ends mid-value, yet neither stream decoder
returns failure: both return a successful decode whose missing byte was
read from end-of-stream as 0xff (itf8 gives value 0x1ff after 2 nominal
bytes, ltf8 gives 0x41ff masked to 14 bits). -/
theorem claim_C4_counterexample :
    Cram.itf8_decode [0x81] = some (0x1ff, 2) ∧
    Cram.itf8_decode [0x81] ≠ none ∧
    Cram.ltf8_decode [0x81] = some ((0x81 * 2^8 + 0xff) % 2^14, 2) ∧
    Cram.ltf8_decode [0x81] ≠ none := by
  refine ⟨rfl, by decide, rfl, by decide⟩

/-- C4 amended: `itf8_decode` and `ltf8_decode` return failure (-1)
exactly when the stream is already at end-of-stream before the first
byte; a stream that ends part-way through an encoded value instead
yields a successful decode of the nominal byte count, with every byte
past the end read as 0xff. -/
theorem claim_C4_amended_decode_fails_iff_empty (s : List Nat) :
    (Cram.itf8_decode s = none ↔ s = []) ∧
    (Cram.ltf8_decode s = none ↔ s = []) := by
  cases s with
  | nil => simp [Cram.itf8_decode, Cram.ltf8_decode]
  | cons b rest =>
    constructor <;>
      · simp only [Cram.itf8_decode, Cram.ltf8_decode]
        split_ifs <;> simp

/-- C2: writing a block whose in-memory fields are well-formed (byte
fields below 256, ITF8 fields 32-bit patterns, payload buffer of the
written length) and which satisfies the checked precondition
(Raw implies equal sizes) and then reading the bytes back succeeds and
reproduces all five header fields and the payload exactly, leaving the
trailing stream untouched. -/
theorem claim_C2_block_roundtrip (b : Cram.cram_block) (rest : List Nat)
    (hm : b.method < 256) (hc : b.content_type < 256)
    (hid : b.content_id < 2^32) (hcs : b.comp_size < 2^32)
    (hus : b.uncomp_size < 2^32)
    (hraw : b.method = Cram.RAW → b.comp_size = b.uncomp_size)
    (hdata : b.data.length =
      if b.method = Cram.RAW then b.uncomp_size else b.comp_size) :
    Cram.cram_read_block (Cram.cram_write_block b ++ rest) =
      some (b, rest) := by
  have hdata' : b.data.take
      (if b.method = Cram.RAW then b.uncomp_size else b.comp_size) =
      b.data := by
    rw [← hdata]
    exact List.take_length b.data
  unfold Cram.cram_write_block
  rw [hdata', Nat.mod_eq_of_lt hm, Nat.mod_eq_of_lt hc]
  unfold Cram.cram_read_block
  simp only [List.cons_append, List.nil_append, List.append_assoc,
    Cram.itf8_decodeS_put b.content_id hid,
    Cram.itf8_decodeS_put b.comp_size hcs,
    Cram.itf8_decodeS_put b.uncomp_size hus]
  have hlen : (if b.method = Cram.RAW then b.uncomp_size else b.comp_size) =
      b.data.length := hdata.symm
  rw [hlen, if_pos (by simp [List.length_append]), List.take_left,
    List.drop_left]

/-- Witness for C2 at a concrete Raw block with a two-byte payload. -/
theorem claim_C2_witness :
    Cram.cram_read_block (Cram.cram_write_block
      { method := 0, content_type := 4, content_id := 7,
        comp_size := 2, uncomp_size := 2, data := [10, 20] } ++ [9]) =
      some ({ method := 0, content_type := 4, content_id := 7,
              comp_size := 2, uncomp_size := 2, data := [10, 20] }, [9]) :=
  claim_C2_block_roundtrip
    { method := 0, content_type := 4, content_id := 7,
      comp_size := 2, uncomp_size := 2, data := [10, 20] } [9]
    (by norm_num) (by norm_num) (by norm_num) (by norm_num) (by norm_num)
    (fun _ ↦ rfl) (by norm_num [Cram.RAW])

/-- C7: compressing with level 0 always succeeds, forcing Raw with
`comp_size = uncomp_size`; compressing an already non-Raw block with a
nonzero level succeeds without modifying block or metrics; and after any
successful compress call the invariant `method = Raw →
comp_size = uncomp_size` holds on the result. -/
theorem claim_C7_compress_level0_and_noop
    (deflate : List Nat → Int → Int → List Nat) (b : Cram.cram_block)
    (m : Cram.cram_metrics) (level strat level2 strat2 : Int) :
    (level = 0 →
      Cram.cram_compress_block deflate b m level strat level2 strat2 =
        some ({ b with method := Cram.RAW, comp_size := b.uncomp_size }, m)) ∧
    (level ≠ 0 → b.method ≠ Cram.RAW →
      Cram.cram_compress_block deflate b m level strat level2 strat2 =
        some (b, m)) ∧
    (∀ b' m', Cram.cram_compress_block deflate b m level strat level2 strat2 =
        some (b', m') → b'.method = Cram.RAW →
        b'.comp_size = b'.uncomp_size) := by
  refine ⟨fun h0 ↦ by simp [Cram.cram_compress_block, h0], fun h0 hnr ↦ by
    simp [Cram.cram_compress_block, h0, hnr], fun b' m' hres hraw ↦ ?_⟩
  unfold Cram.cram_compress_block at hres
  split_ifs at hres with h0 hnr hs2 htr hnt <;>
    replace hres := (Option.some.inj hres).symm
  · rw [congrArg (fun p ↦ p.1.comp_size) hres,
      congrArg (fun p ↦ p.1.uncomp_size) hres]
  · rw [congrArg (fun p ↦ p.1.method) hres] at hraw
    exact absurd hraw hnr
  · have hg := (congrArg (fun p ↦ p.1.method) hres).trans
      (Cram.cram_compress_both_method deflate b m level strat level2 strat2)
    exact absurd (hraw.symm.trans hg) (by decide)
  · have hg := (congrArg (fun p ↦ p.1.method) hres).trans
      (Cram.cram_compress_both_method deflate b
        { m with next_trial := m.next_trial - 1 } level strat level2 strat2)
    exact absurd (hraw.symm.trans hg) (by decide)
  all_goals
    have hg : b'.method = Cram.GZIP := congrArg (fun p ↦ p.1.method) hres
    exact absurd (hraw.symm.trans hg) (by decide)

/-- Witness for C7 at level 0 and at a non-Raw block, with the identity
deflate oracle. -/
theorem claim_C7_witness :
    ((0 : Int) = 0 →
      Cram.cram_compress_block (fun d _ _ ↦ d)
        { method := 0, content_type := 4, content_id := 1,
          comp_size := 9, uncomp_size := 3, data := [1, 2, 3] }
        Cram.cram_new_metrics 0 0 0 1 =
      some ({ method := Cram.RAW, content_type := 4, content_id := 1,
              comp_size := 3, uncomp_size := 3, data := [1, 2, 3] },
            Cram.cram_new_metrics)) ∧
    ((5 : Int) ≠ 0 → (1 : Nat) ≠ Cram.RAW →
      Cram.cram_compress_block (fun d _ _ ↦ d)
        { method := 1, content_type := 4, content_id := 1,
          comp_size := 3, uncomp_size := 5, data := [1, 2, 3] }
        Cram.cram_new_metrics 5 0 5 1 =
      some ({ method := 1, content_type := 4, content_id := 1,
              comp_size := 3, uncomp_size := 5, data := [1, 2, 3] },
            Cram.cram_new_metrics)) :=
  ⟨fun h ↦ (claim_C7_compress_level0_and_noop (fun d _ _ ↦ d)
      { method := 0, content_type := 4, content_id := 1,
        comp_size := 9, uncomp_size := 3, data := [1, 2, 3] }
      Cram.cram_new_metrics 0 0 0 1).1 h,
   fun h1 h2 ↦ (claim_C7_compress_level0_and_noop (fun d _ _ ↦ d)
      { method := 1, content_type := 4, content_id := 1,
        comp_size := 3, uncomp_size := 5, data := [1, 2, 3] }
      Cram.cram_new_metrics 5 0 5 1).2.1 h1 h2⟩

/-- C10 counterexample: a block with method Raw, `uncomp_size = 0` and
`comp_size = 5` takes the blank-block path, so `uncomp_size` is left at
0 rather than being assigned `comp_size`: the claim's second clause
("for every block whose method is Raw, the call assigns
uncomp_size := comp_size, so comp_size = uncomp_size afterwards") fails
on it. -/
theorem claim_C10_counterexample :
    Cram.cram_uncompress_block (fun d ↦ some d)
      { method := Cram.RAW, content_type := 4, content_id := 1,
        comp_size := 5, uncomp_size := 0, data := [] } =
      some { method := Cram.RAW, content_type := 4, content_id := 1,
             comp_size := 5, uncomp_size := 0, data := [] } ∧
    (5 : Nat) ≠ 0 := by
  refine ⟨rfl, by decide⟩

/-- C10 amended: decompressing a block with `uncomp_size = 0` succeeds
and just resets the method to Raw, whatever the method was (the switch
on the method, including the unavailable bzip2 backend, is never
reached); and for every block with method Raw and nonzero `uncomp_size`
it succeeds assigning `uncomp_size := comp_size`, so `comp_size =
uncomp_size` holds afterwards.  A Raw block whose `uncomp_size` is 0
takes the first path instead, keeping `uncomp_size = 0` even when
`comp_size` differs. -/
theorem claim_C10_amended_uncompress_edges
    (inflate : List Nat → Option (List Nat)) (b : Cram.cram_block) :
    (b.uncomp_size = 0 →
      Cram.cram_uncompress_block inflate b =
        some { b with method := Cram.RAW }) ∧
    (b.uncomp_size ≠ 0 → b.method = Cram.RAW →
      Cram.cram_uncompress_block inflate b =
        some { b with uncomp_size := b.comp_size } ∧
      ∀ b', Cram.cram_uncompress_block inflate b = some b' →
        b'.comp_size = b'.uncomp_size) := by
  refine ⟨fun h0 ↦ by simp [Cram.cram_uncompress_block, h0],
    fun h0 hraw ↦ ⟨by simp [Cram.cram_uncompress_block, h0, hraw],
      fun b' hres ↦ ?_⟩⟩
  simp only [Cram.cram_uncompress_block, if_neg h0, if_pos hraw,
    Option.some.injEq] at hres
  subst hres
  rfl

/-- C6 counterexample: the claim says the win counts m1, m2 are never
reset during the session, but the call that re-triggers a trial episode
(trial 0, next_trial decrementing to 0) resets both to 0: from the
reachable state (m1=5, m2=3, trial=0, next_trial=1), one compress call
with a second candidate leaves m1 = 0, not 5 (and m2 = 1 after the
second candidate wins the tie). -/
theorem claim_C6_counterexample :
    Cram.cram_compress_block (fun d _ _ ↦ d)
      { method := 0, content_type := 4, content_id := 1,
        comp_size := 3, uncomp_size := 3, data := [1, 2, 3] }
      { m1 := 5, m2 := 3, trial := 0, next_trial := 1 } 5 0 5 1 =
      some ({ method := 1, content_type := 4, content_id := 1,
              comp_size := 3, uncomp_size := 3, data := [1, 2, 3] },
            { m1 := 0, m2 := 1, trial := 2, next_trial := 100 }) ∧
    (0 : Int) ≠ 5 := by
  refine ⟨rfl, by decide⟩

/-- C6 amended: with a second candidate (strat2 ≥ 0), a Raw block and a
nonzero level, a call in trial mode (trial ≠ 0, next_trial ≠ 0)
compresses with both candidates, selects the first exactly when its
size is smaller than 98% of the second's (0.98 as the exact rational
49/50), increments the corresponding win counter and decrements trial,
leaving next_trial and the other counter untouched; and a call with
trial = 0 whose next_trial decrements to 0 re-arms the trial state to
trial = 2, next_trial = 100 and resets both win counts to 0 before
crediting the winner of that call. -/
theorem claim_C6_amended_metrics_trial
    (deflate : List Nat → Int → Int → List Nat) (b : Cram.cram_block)
    (m : Cram.cram_metrics) (level strat level2 strat2 : Int)
    (hL : level ≠ 0) (hR : b.method = Cram.RAW) (hS : 0 ≤ strat2) :
    (m.trial ≠ 0 → m.next_trial ≠ 0 →
      Cram.cram_compress_block deflate b m level strat level2 strat2 =
        some (if 50 * (deflate b.data level strat).length <
                 49 * (deflate b.data level2 strat2).length then
                ({ b with data := deflate b.data level strat,
                          method := Cram.GZIP,
                          comp_size := (deflate b.data level strat).length },
                 { m with trial := m.trial - 1, m1 := m.m1 + 1 })
              else
                ({ b with data := deflate b.data level2 strat2,
                          method := Cram.GZIP,
                          comp_size := (deflate b.data level2 strat2).length },
                 { m with trial := m.trial - 1, m2 := m.m2 + 1 }))) ∧
    (m.trial = 0 → m.next_trial = 1 →
      Cram.cram_compress_block deflate b m level strat level2 strat2 =
        some (if 50 * (deflate b.data level strat).length <
                 49 * (deflate b.data level2 strat2).length then
                ({ b with data := deflate b.data level strat,
                          method := Cram.GZIP,
                          comp_size := (deflate b.data level strat).length },
                 { m1 := 1, m2 := 0, trial := 2, next_trial := 100 })
              else
                ({ b with data := deflate b.data level2 strat2,
                          method := Cram.GZIP,
                          comp_size := (deflate b.data level2 strat2).length },
                 { m1 := 0, m2 := 1, trial := 2, next_trial := 100 }))) := by
  constructor
  · intro ht hnt
    unfold Cram.cram_compress_block
    rw [if_neg hL, if_neg (not_not_intro hR), if_pos hS, if_pos ht]
    unfold Cram.cram_compress_both Cram.metrics_step
    rw [if_neg hnt]
  · intro ht hnt
    unfold Cram.cram_compress_block
    rw [if_neg hL, if_neg (not_not_intro hR), if_pos hS,
      if_neg (not_not_intro ht), if_pos (show m.next_trial - 1 = 0 by omega)]
    unfold Cram.cram_compress_both Cram.metrics_step
    rw [if_pos (show m.next_trial - 1 = 0 by omega)]
    rfl

/-- Witness for C6 amended at a fresh metrics state (trial = 2,
next_trial = 100) with the identity deflate oracle: both candidates tie,
so the second wins, m2 is credited and trial drops to 1. -/
theorem claim_C6_amended_witness :
    Cram.cram_compress_block (fun d _ _ ↦ d)
      { method := 0, content_type := 4, content_id := 1,
        comp_size := 3, uncomp_size := 3, data := [1, 2, 3] }
      Cram.cram_new_metrics 5 0 5 1 =
      some ({ method := 1, content_type := 4, content_id := 1,
              comp_size := 3, uncomp_size := 3, data := [1, 2, 3] },
            { m1 := 0, m2 := 1, trial := 1, next_trial := 100 }) := by
  have h := (claim_C6_amended_metrics_trial (fun d _ _ ↦ d)
      { method := 0, content_type := 4, content_id := 1,
        comp_size := 3, uncomp_size := 3, data := [1, 2, 3] }
      Cram.cram_new_metrics 5 0 5 1 (by decide) rfl (by decide)).1
      (by decide) (by decide)
  rw [h]
  rfl

/-- Reading back the landmark block written by the landmark loop
recovers the offsets and the trailing stream. -/
theorem read_landmarks_put_landmarks (xs : List Nat)
    (hx : ∀ x ∈ xs, x < 2^32) (rest : List Nat) :
    Cram.read_landmarks xs.length (Cram.put_landmarks xs ++ rest) =
      some (xs, rest) := by
  induction xs generalizing rest with
  | nil => simp [Cram.put_landmarks, Cram.read_landmarks]
  | cons y ys ih =>
    have hy : y < 2^32 := hx y (by simp)
    have hys : ∀ x ∈ ys, x < 2^32 := fun x hxm ↦ hx x (by simp [hxm])
    simp only [Cram.put_landmarks, List.length_cons, List.append_assoc,
      Cram.read_landmarks, Cram.itf8_decodeS_put y hy, ih hys]

/-- The legacy version zeroes the counters without consuming input. -/
theorem read_counters_v1 (s : List Nat) :
    Cram.read_counters Cram.CRAM_1_VERS s = some (0, 0, s) := by
  simp [Cram.read_counters]

/-- Non-legacy versions read back the counters written as ITF8/LTF8. -/
theorem read_counters_put (version : Nat) (hv : version ≠ Cram.CRAM_1_VERS)
    (rc nb : Nat) (hrc : rc < 2^32) (hnb : nb < 2^64) (rest : List Nat) :
    Cram.read_counters version
      (Cram.itf8_put rc ++ (Cram.ltf8_put nb ++ rest)) =
      some (rc, nb, rest) := by
  simp only [Cram.read_counters, if_neg hv,
    Cram.itf8_decodeS_put rc hrc, Cram.ltf8_decodeS_put nb hnb]

/-- C3 counterexample: for the legacy wire version, `record_counter` (a
scalar header field) is not written, and the decoder zeroes it: a
container with record_counter = 1 decodes with record_counter = 0, so
the round trip does not reproduce all scalar header fields for every
file version. -/
theorem claim_C3_counterexample :
    (Cram.cram_read_container Cram.CRAM_1_VERS false
      (Cram.cram_write_container Cram.CRAM_1_VERS
        { length := 10, ref_seq_id := 0, ref_seq_start := 1,
          ref_seq_span := 2, num_records := 3, record_counter := 1,
          num_bases := 4, num_blocks := 0, num_landmarks := 0,
          landmark := [], multi_seq := false })).map
      (fun x ↦ x.1.record_counter) = some 0 ∧ (1 : Nat) ≠ 0 := by
  refine ⟨rfl, by decide⟩

/-- C3 amended: encoding then decoding a container reproduces
num_landmarks, every landmark offset, and the scalar header fields,
except that under the legacy wire version `record_counter` and
`num_bases` are not on the wire and decode as 0; when the
multi-sequence flag is set the encoder writes the sentinel triple
(-2, 0, 0) regardless of the stored fields, and the decoder, seeing
ref_seq_id = -2, sets the multi-sequence flag on the decoded container
and on the session. -/
theorem claim_C3_amended_container_roundtrip (version : Nat)
    (fd_multi : Bool) (c : Cram.cram_container) (rest : List Nat)
    (hlen : c.length < 2^32) (hid : c.ref_seq_id < 2^32)
    (hst : c.ref_seq_start < 2^32) (hsp : c.ref_seq_span < 2^32)
    (hnr : c.num_records < 2^32) (hrc : c.record_counter < 2^32)
    (hnb : c.num_bases < 2^64) (hbl : c.num_blocks < 2^32)
    (hnl : c.num_landmarks = c.landmark.length)
    (hnl31 : c.num_landmarks < 2^31)
    (hlm : ∀ x ∈ c.landmark, x < 2^32) :
    Cram.cram_read_container version fd_multi
        (Cram.cram_write_container version c ++ rest) =
      some ({ c with
              ref_seq_id := if c.multi_seq then 2^32 - 2 else c.ref_seq_id,
              ref_seq_start := if c.multi_seq then 0 else c.ref_seq_start,
              ref_seq_span := if c.multi_seq then 0 else c.ref_seq_span,
              record_counter := if version = Cram.CRAM_1_VERS then 0
                                else c.record_counter,
              num_bases := if version = Cram.CRAM_1_VERS then 0
                           else c.num_bases,
              num_landmarks := c.landmark.length,
              multi_seq := c.multi_seq ||
                decide (c.ref_seq_id = 2^32 - 2) },
            (if c.multi_seq = true ∨ c.ref_seq_id = 2^32 - 2 then true
             else fd_multi),
            rest) := by
  have hsent : (2^32 - 2 : Nat) < 2^32 := by norm_num
  have h032 : (0 : Nat) < 2^32 := by norm_num
  obtain ⟨len, rid, rstart, rspan, nrec, rcount, nbases, nblk, nl, lms, ms⟩ := c
  simp only at hlen hid hst hsp hnr hrc hnb hbl hnl hnl31 hlm ⊢
  subst hnl
  unfold Cram.cram_write_container Cram.cram_read_container
  by_cases hv : version = Cram.CRAM_1_VERS
  · subst hv
    by_cases hms : ms
    all_goals
      repeat
        simp only [hms, Bool.false_eq_true, Bool.true_eq_false,
          if_true, if_false, ite_true, ite_false, ne_eq,
          not_true_eq_false, not_false_eq_true, eq_self_iff_true,
          Option.some_bind,
          List.append_assoc, List.cons_append, List.nil_append,
          List.append_nil,
          Cram.itf8_decodeS_put len hlen,
          Cram.itf8_decodeS_put _ hsent,
          Cram.itf8_decodeS_put 0 h032,
          Cram.itf8_decodeS_put rid hid,
          Cram.itf8_decodeS_put rstart hst,
          Cram.itf8_decodeS_put rspan hsp,
          Cram.itf8_decodeS_put nrec hnr,
          Cram.itf8_decodeS_put nblk hbl,
          Cram.itf8_decodeS_put lms.length
            (lt_trans hnl31 (by norm_num)),
          read_counters_v1,
          read_landmarks_put_landmarks lms hlm,
          if_pos hnl31]
    all_goals simp [hms]
  · by_cases hms : ms
    all_goals
      repeat
        simp only [hms, hv, if_neg hv, Bool.false_eq_true,
          Bool.true_eq_false, if_true, if_false, ite_true,
          ite_false, ne_eq, not_true_eq_false, not_false_eq_true,
          eq_self_iff_true,
          Option.some_bind,
          List.append_assoc, List.cons_append, List.nil_append,
          List.append_nil,
          Cram.int32_decode_le4 len hlen,
          Cram.itf8_decodeS_put _ hsent,
          Cram.itf8_decodeS_put 0 h032,
          Cram.itf8_decodeS_put rid hid,
          Cram.itf8_decodeS_put rstart hst,
          Cram.itf8_decodeS_put rspan hsp,
          Cram.itf8_decodeS_put nrec hnr,
          Cram.itf8_decodeS_put nblk hbl,
          Cram.itf8_decodeS_put lms.length
            (lt_trans hnl31 (by norm_num)),
          read_counters_put version hv rcount nbases hrc hnb,
          read_landmarks_put_landmarks lms hlm,
          if_pos hnl31]
    all_goals simp [hms, hv]

/-- Witness for C3 amended at a concrete non-legacy container with one
landmark. -/
theorem claim_C3_amended_witness :
    Cram.cram_read_container 200 false
        (Cram.cram_write_container 200
          { length := 5, ref_seq_id := 1, ref_seq_start := 2,
            ref_seq_span := 3, num_records := 4, record_counter := 6,
            num_bases := 2^40, num_blocks := 2, num_landmarks := 1,
            landmark := [7], multi_seq := false } ++ []) =
      some ({ length := 5, ref_seq_id := 1, ref_seq_start := 2,
              ref_seq_span := 3, num_records := 4, record_counter := 6,
              num_bases := 2^40, num_blocks := 2, num_landmarks := 1,
              landmark := [7], multi_seq := false }, false, []) := by
  have h := claim_C3_amended_container_roundtrip 200 false
    { length := 5, ref_seq_id := 1, ref_seq_start := 2,
      ref_seq_span := 3, num_records := 4, record_counter := 6,
      num_bases := 2^40, num_blocks := 2, num_landmarks := 1,
      landmark := [7], multi_seq := false } []
    (by norm_num) (by norm_num) (by norm_num) (by norm_num) (by norm_num)
    (by norm_num) (by norm_num) (by norm_num) rfl (by norm_num) (by decide)
  rw [h]
  rfl

/-- C9: `cram_read_file_def` succeeds exactly on streams of at least 26
bytes whose first four bytes are the magic "CRAM" and whose version
pair (bytes 4 and 5) is (1,0), (1,1) or (2,0); any other magic or
version pair, or a short header, yields failure (and `cram_open` in
read mode propagates that failure immediately). -/
theorem claim_C9_file_def_gate (s : List Nat) :
    (∃ d, Cram.cram_read_file_def s = some d) ↔
      (26 ≤ s.length ∧ s.take 4 = [0x43, 0x52, 0x41, 0x4d] ∧
       ((s.getD 4 0 = 1 ∧ s.getD 5 0 = 0) ∨
        (s.getD 4 0 = 1 ∧ s.getD 5 0 = 1) ∨
        (s.getD 4 0 = 2 ∧ s.getD 5 0 = 0))) := by
  unfold Cram.cram_read_file_def
  split_ifs with h1 h2 h3 <;> simp_all

/-- Witness for C10 amended: a Gzip block with `uncomp_size = 0` is
reset to Raw untouched, and a Raw block with nonzero `uncomp_size` gets
`uncomp_size := comp_size`. -/
theorem claim_C10_amended_witness :
    ((0 : Nat) = 0 →
      Cram.cram_uncompress_block (fun d ↦ some d)
        { method := Cram.GZIP, content_type := 4, content_id := 1,
          comp_size := 3, uncomp_size := 0, data := [1, 2, 3] } =
      some { method := Cram.RAW, content_type := 4, content_id := 1,
             comp_size := 3, uncomp_size := 0, data := [1, 2, 3] }) ∧
    ((7 : Nat) ≠ 0 →
      Cram.cram_uncompress_block (fun d ↦ some d)
        { method := Cram.RAW, content_type := 4, content_id := 1,
          comp_size := 4, uncomp_size := 7, data := [1, 2, 3, 4] } =
      some { method := Cram.RAW, content_type := 4, content_id := 1,
             comp_size := 4, uncomp_size := 4, data := [1, 2, 3, 4] }) :=
  ⟨fun h ↦ (claim_C10_amended_uncompress_edges (fun d ↦ some d)
      { method := Cram.GZIP, content_type := 4, content_id := 1,
        comp_size := 3, uncomp_size := 0, data := [1, 2, 3] }).1 h,
   fun h ↦ ((claim_C10_amended_uncompress_edges (fun d ↦ some d)
      { method := Cram.RAW, content_type := 4, content_id := 1,
        comp_size := 4, uncomp_size := 7, data := [1, 2, 3, 4] }).2 h
      rfl).1⟩

/-- When no shared-mode counter maintenance applies (same reference,
unsorted session, or shared mode off), cram_io.c:1453-1474 leaves the
session untouched. -/
theorem sharedStep_self (fd : Cram.cram_fd) (id : Int)
    (h : fd.ref_id = id ∨ fd.unsorted = true ∨ fd.shared_ref = false) :
    Cram.sharedStep fd id = some fd := by
  have hc : ¬(fd.ref_id ≠ id ∧ fd.unsorted = false ∧
      fd.shared_ref = true) := by
    rcases h with h | h | h <;> simp [h]
  unfold Cram.sharedStep
  rw [if_neg hc]

/-- A load with no in-memory cache and enough file bytes succeeds, reads
the file, and installs the requested window in the session. -/
theorem loadOrServe_eq (fd : Cram.cram_fd) (id : Int)
    (r : Cram.ref_entry) (start end2 : Int) (hseq : r.seq = none)
    (h1 : 1 ≤ start) (h2 : start ≤ end2 + 1)
    (h3 : end2 ≤ (r.fileData.length : Int)) :
    ∃ fd', Cram.loadOrServe fd id r start end2 =
        .ok fd' (some ((r.fileData.drop (start - 1).toNat).take
          (end2 - start + 1).toNat)) true ∧
      fd'.ref_id = id ∧ fd'.ref_start = start ∧ fd'.ref_end = end2 ∧
      fd'.ref = some ((r.fileData.drop (start - 1).toNat).take
        (end2 - start + 1).toNat) ∧
      fd'.unsorted = fd.unsorted ∧ fd'.shared_ref = fd.shared_ref := by
  simp only [Cram.loadOrServe, hseq]
  rw [if_neg (by omega)]
  by_cases hst : (fd.unsorted = true ∧ start = 1 ∧ end2 = r.length) ∨
      fd.shared_ref = true
  · rw [if_pos hst]; exact ⟨_, rfl, rfl, rfl, rfl, rfl, rfl, rfl⟩
  · rw [if_neg hst]; exact ⟨_, rfl, rfl, rfl, rfl, rfl, rfl, rfl⟩

set_option maxRecDepth 100000 in
/-- C5 counterexample: on a resolved 1000-base entry, the request
(start 1, end 500) spans exactly half of the entry, which the claim
says is promoted to a whole-sequence load; in the code the promotion
test is `end - start >= 0.5*length` (499 >= 500 fails), so only
[1,500] is cached, and the subsequent disjoint request [600,610] for
the same id reads the reference file again instead of being served
from memory. -/
theorem claim_C5_counterexample :
    ((Cram.outFd (Cram.cram_get_ref Cram.refFD0 0 1 500)).map
        (fun fd ↦ (fd.ref_start, fd.ref_end)) = some (1, 500)) ∧
    ((500 : Int) ≠ 1000) ∧
    ((Cram.outFd (Cram.cram_get_ref Cram.refFD0 0 1 500)).bind
        (fun fd1 ↦ Cram.outFileRead
          (Cram.cram_get_ref fd1 0 600 610)) = some true) :=
  ⟨rfl, by decide, rfl⟩

/-- C5 amended: on a fast-path miss with no shared-mode counter step,
for a resolved entry with no in-memory copy and enough file bytes,
`end` is clamped to the entry length (`end < 1` meaning the whole
sequence); the whole sequence [1, length] is loaded exactly when
`length ≤ 2*(clamped end - start)` (i.e. `end - start ≥ 0.5*length`,
so a span of exactly half an even-length entry does NOT promote) or
the session is in shared-reference mode, and otherwise the clamped
sub-range is loaded; after a promoted load, every subsequent request
for the same id with `start ≥ 1` and `end ≤ length` is served from the
session's memory window without file I/O. -/
theorem claim_C5_amended_clamp_promote (fd : Cram.cram_fd)
    (id start end0 : Int) (r : Cram.ref_entry)
    (hmiss : ¬(id = fd.ref_id ∧ fd.ref_start ≤ start ∧
      end0 ≤ fd.ref_end))
    (hnoc : fd.ref_id = id ∨ fd.unsorted = true ∨ fd.shared_ref = false)
    (hget : Cram.refsGet fd.refs id = some (some r))
    (hlen : 0 < r.length)
    (hseq : r.seq = none)
    (hstart : 1 ≤ start)
    (hse : start ≤ Cram.clampEnd r.length end0 + 1)
    (hfile : r.length ≤ (r.fileData.length : Int)) :
    ∃ fd' data,
      Cram.cram_get_ref fd id start end0 = .ok fd' (some data) true ∧
      fd'.ref_start = (if Cram.promotes r.length start
          (Cram.clampEnd r.length end0) fd.shared_ref
        then 1 else start) ∧
      fd'.ref_end = (if Cram.promotes r.length start
          (Cram.clampEnd r.length end0) fd.shared_ref
        then r.length else Cram.clampEnd r.length end0) ∧
      fd'.ref_id = id ∧ fd'.ref = some data ∧
      (Cram.promotes r.length start (Cram.clampEnd r.length end0)
          fd.shared_ref = true →
        ∀ s2 e2 : Int, 1 ≤ s2 → e2 ≤ r.length →
          Cram.cram_get_ref fd' id s2 e2 =
            .ok fd' (some data) false) := by
  have hid0 : (0 : Int) ≤ id := by
    by_contra hneg
    unfold Cram.refsGet at hget
    rw [if_neg (by omega)] at hget
    exact Option.noConfusion hget
  have hidlt : id.toNat < fd.refs.length := by
    unfold Cram.refsGet at hget
    rw [if_pos hid0] at hget
    by_contra hge
    rw [List.getElem?_eq_none (by omega)] at hget
    exact Option.noConfusion hget
  have hcl : Cram.clampEnd r.length end0 ≤ r.length := by
    unfold Cram.clampEnd; split_ifs <;> omega
  have hid_neg : ¬ id < 0 := by omega
  have hlen_neg : ¬ ((fd.refs.length : Int) ≤ id) := by omega
  have hnotz : ¬ r.length = 0 := by omega
  have hnost : ¬ start < 1 := by omega
  have hstep : Cram.cram_get_ref fd id start end0 =
      if Cram.promotes r.length start (Cram.clampEnd r.length end0)
          fd.shared_ref then
        Cram.loadOrServe fd id r 1 r.length
      else
        Cram.loadOrServe fd id r start
          (Cram.clampEnd r.length end0) := by
    simp only [Cram.cram_get_ref, if_neg hmiss,
      sharedStep_self fd id hnoc, if_neg hid_neg, if_neg hlen_neg, hget,
      if_neg hnotz, if_neg hnost]
  by_cases hp : Cram.promotes r.length start
      (Cram.clampEnd r.length end0) fd.shared_ref = true
  · obtain ⟨fd', heq, hid', hrs, hre, href, hun, hsh⟩ :=
      loadOrServe_eq fd id r 1 r.length hseq le_rfl (by omega) (by omega)
    refine ⟨fd', _, ?_, ?_, ?_, hid', href, ?_⟩
    · rw [hstep, if_pos hp]; exact heq
    · rw [if_pos hp]; exact hrs
    · rw [if_pos hp]; exact hre
    · intro _ s2 e2 hs2 he2
      have hcond : id = fd'.ref_id ∧ fd'.ref_start ≤ s2 ∧
          e2 ≤ fd'.ref_end :=
        ⟨hid'.symm, by rw [hrs]; exact hs2, by rw [hre]; exact he2⟩
      simp only [Cram.cram_get_ref, if_pos hcond, href]
  · obtain ⟨fd', heq, hid', hrs, hre, href, hun, hsh⟩ :=
      loadOrServe_eq fd id r start (Cram.clampEnd r.length end0) hseq
        hstart hse (by omega)
    refine ⟨fd', _, ?_, ?_, ?_, hid', href, ?_⟩
    · rw [hstep, if_neg hp]; exact heq
    · rw [if_neg hp]; exact hrs
    · rw [if_neg hp]; exact hre
    · intro hp'; exact absurd hp' hp

/-- Witness for C5 amended at a concrete promoted request: [1,600] of a
resolved 1000-base entry (600 - 1 ≥ 500). -/
theorem claim_C5_amended_witness :
    ∃ fd' data,
      Cram.cram_get_ref Cram.refFD0 0 1 600 =
        .ok fd' (some data) true ∧
      fd'.ref_start = (if Cram.promotes Cram.refEntry1000.length 1
          (Cram.clampEnd Cram.refEntry1000.length 600)
          Cram.refFD0.shared_ref then 1 else 1) ∧
      fd'.ref_end = (if Cram.promotes Cram.refEntry1000.length 1
          (Cram.clampEnd Cram.refEntry1000.length 600)
          Cram.refFD0.shared_ref then Cram.refEntry1000.length
        else Cram.clampEnd Cram.refEntry1000.length 600) ∧
      fd'.ref_id = 0 ∧ fd'.ref = some data ∧
      (Cram.promotes Cram.refEntry1000.length 1
          (Cram.clampEnd Cram.refEntry1000.length 600)
          Cram.refFD0.shared_ref = true →
        ∀ s2 e2 : Int, 1 ≤ s2 → e2 ≤ Cram.refEntry1000.length →
          Cram.cram_get_ref fd' 0 s2 e2 =
            .ok fd' (some data) false) :=
  claim_C5_amended_clamp_promote Cram.refFD0 0 1 600
    Cram.refEntry1000 (by decide) (by decide) rfl (by decide) rfl
    (by decide) (by decide) (by norm_num [Cram.refEntry1000])

/-- C8: the claim's universal safety statement fails in shared mode.
In a shared-reference session whose current reference is 0, the call
cram_get_ref(fd, -1, 1, 0) reaches the unguarded counter increment
`fd->refs->ref_id[id]->seq` (cram_io.c:1472) before the `id < 0`
unmapped check (cram_io.c:1480) and reads the pointer array at index
-1 (out of bounds); with shared mode off, the same call takes the
documented unmapped path: buffer released, window cleared
(`ref = NULL`, `ref_id = -1`), NULL returned as a non-error. -/
theorem claim_C8_unmapped_negative_index :
    Cram.cram_get_ref Cram.sharedFD (-1) 1 0 = .oob ∧
    Cram.cram_get_ref { Cram.sharedFD with shared_ref := false }
        (-1) 1 0 =
      .ok { Cram.sharedFD with
            shared_ref := false, ref := none,
            ref_id := -1, ref_free := none } none false :=
  ⟨rfl, rfl⟩
